import Mathlib

/-!
Verification of the dual-transport remote command-execution engine
(`serial_command_runner.py` and `terminal_command_runner.py`).

Shallow embedding conventions:
* Text is `String`; substring tests are embedded as infix tests on `List Char`
  (Python's `needle in haystack`), and Python's `str.lower()` as a
  character-wise `Char.toLower` map (all needles are ASCII).
* Wall-clock quantities (timeouts, deadlines, probe windows) are `ℚ` seconds;
  the source's float arithmetic on these values (`min`, `max`, subtraction of
  literals such as 0.8, 1.0, 0.1) is exact, so `ℚ` is faithful.
* Compiled regular expressions received from the caller are abstracted as
  `String → Bool` matchers; the fixed regexes whose concrete behaviour the
  claims depend on (the ANSI CSI stripper) are embedded executably.
* Serial/SSH I/O is modelled by a stream `Nat → String` giving the text
  returned by the n-th read operation of a session, plus explicit time
  accounting mirroring the source's deadline arithmetic.
-/

/-! ## Text utilities (embedding of Python substring / lower-case tests) -/

/-- Characters of `s` lower-cased, embedding Python `s.lower()` for ASCII text. -/
def lowerList (s : String) : List Char :=
  s.toList.map Char.toLower

/-- Python `needle in haystack` on raw text. -/
def containsSub (hay needle : String) : Bool :=
  decide (needle.toList <:+: hay.toList)

/-- Python `needle in haystack.lower()` (the needle is already lower-case). -/
def lowerContains (hay needle : String) : Bool :=
  decide (needle.toList <:+: lowerList hay)

theorem lowerContains_of_containsSub (hay needle lowered : String)
    (hmap : needle.toList.map Char.toLower = lowered.toList)
    (h : containsSub hay needle = true) :
    lowerContains hay lowered = true := by
  have hinf : needle.toList <:+: hay.toList := of_decide_eq_true h
  have hinf2 : needle.toList.map Char.toLower <:+: lowerList hay := hinf.map Char.toLower
  rw [hmap] at hinf2
  exact decide_eq_true hinf2

/-! ## C1: per-command completion markers (`_run_one_command`, line 369)

Source: `marker = f"__COPILOT_DONE_{int(time.time() * 1000)}__"`.
The marker is a pure function of the wall-clock millisecond timestamp. -/

/-- Marker built by `_run_one_command` from `int(time.time() * 1000)`. -/
def commandMarker (ms : Nat) : String :=
  "__COPILOT_DONE_" ++ toString ms ++ "__"

/-! ## C2: effective per-command timeouts

serial_command_runner.main line 673:
`max(1.0, overall_deadline - now)` if `ct <= 0` else
`min(ct, max(1.0, overall_deadline - now))`.
terminal_command_runner._try_run_commands_over_ssh lines 244-245:
`remaining = max(0.1, overall_deadline - now)`;
`per_cmd_timeout = remaining if ct <= 0 else min(ct, remaining)`. -/

/-- Effective per-command timeout chosen by the serial runner's command loop,
as a function of the configured per-command timeout `ct` and the time
`remaining` until the overall deadline. -/
def serialEffectiveCommandTimeout (ct remaining : ℚ) : ℚ :=
  if ct ≤ 0 then max 1 remaining else min ct (max 1 remaining)

/-- Effective per-command timeout chosen by the SSH executor's command loop. -/
def sshEffectiveCommandTimeout (ct remaining : ℚ) : ℚ :=
  if ct ≤ 0 then max (1/10) remaining else min ct (max (1/10) remaining)

/-! ## C3: `auto` transport mode after an SSH failure

terminal_command_runner: `_is_ssh_auth_failure` (lines 365-374) and the tail of
`main`'s auto branch (lines 610-644). -/

/-- Signals scanned for by `_is_ssh_auth_failure` (already lower-case). -/
def SSH_AUTH_FAILURE_SIGNALS : List String :=
  ["authenticationexception", "authentication failed", "auth failed",
   "bad authentication", "permission denied"]

/-- Embedding of `_is_ssh_auth_failure`. -/
def isSshAuthFailure (transcript : String) : Bool :=
  SSH_AUTH_FAILURE_SIGNALS.any (fun s => lowerContains transcript s)

/-- Embedding of `_is_no_serial_connection_output` (serial_command_runner). -/
def isNoSerialConnectionOutput (text : String) : Bool :=
  lowerContains text "connection appears inactive"

/-- Exit code for the "no terminal / unreachable" classification (both files). -/
def NO_SERIAL_CONNECTION_EXIT_CODE : Int := 12

/-- Exit code for the "alive but no usable Linux shell" classification. -/
def ALIVE_NO_LINUX_SHELL_EXIT_CODE : Int := 13

/-- Embedding of `_is_no_serial_connection_result` (terminal_command_runner). -/
def isNoSerialConnectionResult (rc : Int) (out err : String) : Bool :=
  if rc = NO_SERIAL_CONNECTION_EXIT_CODE then true
  else
    let combined := out ++ "\n" ++ err
    lowerContains combined "no serial connection" ||
    lowerContains combined "connection appears inactive" ||
    lowerContains combined "no terminal"

/-- Embedding of `_is_serial_alive_no_linux_shell_result`. -/
def isSerialAliveNoLinuxShellResult (rc : Int) (out err : String) : Bool :=
  if rc = ALIVE_NO_LINUX_SHELL_EXIT_CODE then true
  else lowerContains (out ++ "\n" ++ err) "serial is alive, but no linux shell"

/-- Embedding of `_is_serial_unavailable_result`. -/
def isSerialUnavailableResult (out err : String) : Bool :=
  let combined := out ++ "\n" ++ err
  ["no serial devices found", "could not auto-detect a responding serial console",
   "could not open port", "permission denied", "serial error"].any
    (fun s => lowerContains combined s)

/-- Observable actions of the auto-mode tail of `terminal_command_runner.main`
after a failed SSH attempt. -/
inductive AutoEvent where
  | authGuidance
  | cleanupHolders
  | serialRun
  | serialRetryRun
deriving DecidableEq

/-- Result of one invocation of the serial fallback subprocess. -/
structure SerialAttemptResult where
  rc : Int
  out : String
  err : String

/-- Embedding of the auto-mode tail of `main` (lines 610-644): decides, from
the failed SSH attempt's transcript, whether to abort with authentication
guidance or to clean up serial holders and attempt the serial fallback
(retrying once more after an SSH-timeout-shaped failure). `first` and
`second` are the results the serial subprocess would return. Returns the
emitted actions and the final process exit code. -/
def autoAfterSshFailure (transcript : String)
    (first second : SerialAttemptResult) : List AutoEvent × Int :=
  if isSshAuthFailure transcript then ([AutoEvent.authGuidance], 255)
  else
    let sshTimeout := containsSub transcript "TimeoutError" ||
      lowerContains transcript "timed out"
    let pre : List AutoEvent :=
      if sshTimeout then [AutoEvent.cleanupHolders] else []
    let ev1 := pre ++ [AutoEvent.serialRun]
    if isSerialAliveNoLinuxShellResult first.rc first.out first.err then
      (ev1, first.rc)
    else if isNoSerialConnectionResult first.rc first.out first.err then
      (ev1, first.rc)
    else if first.rc ≠ 0 ∧ sshTimeout = true then
      (ev1 ++ [AutoEvent.cleanupHolders, AutoEvent.serialRetryRun], second.rc)
    else (ev1, first.rc)

/-! ## Claim theorems (first batch) -/

/-- C1: the completion marker of `_run_one_command` is a function of the
wall-clock millisecond alone, so two commands issued within the same
millisecond receive the identical marker, and a tight loop of 50 commands
inside one millisecond does not produce 50 distinct marker strings. -/
theorem commandMarker_same_millisecond_collision :
    commandMarker 1700000000000 = commandMarker 1700000000000 ∧
    ¬ ((List.replicate 50 1700000000000).map commandMarker).Nodup := by
  refine ⟨rfl, ?_⟩
  intro h
  have h2 := (List.nodup_replicate (n := 50)).mp (h.of_map commandMarker)
  omega

/-- C2 counterexample: with a per-command timeout of 5 s and 1/2 s remaining
in the overall budget, the serial runner's effective timeout is 1 s — not
`min 5 (1/2) = 1/2` — and it exceeds the remaining overall budget, so the
claim as stated is false. -/
theorem effectiveTimeout_not_min_counterexample :
    serialEffectiveCommandTimeout 5 (1/2) = 1 ∧
    serialEffectiveCommandTimeout 5 (1/2) ≠ min 5 (1/2 : ℚ) ∧
    ¬ serialEffectiveCommandTimeout 5 (1/2) ≤ (1/2 : ℚ) := by
  refine ⟨?_, ?_, ?_⟩ <;> simp [serialEffectiveCommandTimeout] <;> norm_num

/-- C2 (amended): for a positive per-command timeout `ct` the effective
timeout is `min ct (max floor remaining)` where the floor is 1 s for the
serial runner and 0.1 s for the SSH executor; whenever the remaining overall
budget is at least the floor this equals `min ct remaining` and never exceeds
the remaining budget. -/
theorem effectiveTimeout_amended (ct remaining : ℚ) (hct : 0 < ct) :
    (serialEffectiveCommandTimeout ct remaining = min ct (max 1 remaining) ∧
      (1 ≤ remaining →
        serialEffectiveCommandTimeout ct remaining = min ct remaining ∧
        serialEffectiveCommandTimeout ct remaining ≤ remaining)) ∧
    (sshEffectiveCommandTimeout ct remaining = min ct (max (1/10) remaining) ∧
      ((1/10 : ℚ) ≤ remaining →
        sshEffectiveCommandTimeout ct remaining = min ct remaining ∧
        sshEffectiveCommandTimeout ct remaining ≤ remaining)) := by
  have hct' : ¬ ct ≤ 0 := not_le.mpr hct
  constructor
  · constructor
    · unfold serialEffectiveCommandTimeout
      rw [if_neg hct']
    · intro h
      have hmax : max (1 : ℚ) remaining = remaining := max_eq_right h
      unfold serialEffectiveCommandTimeout
      rw [if_neg hct', hmax]
      exact ⟨rfl, min_le_right _ _⟩
  · constructor
    · unfold sshEffectiveCommandTimeout
      rw [if_neg hct']
    · intro h
      have hmax : max (1/10 : ℚ) remaining = remaining := max_eq_right h
      unfold sshEffectiveCommandTimeout
      rw [if_neg hct', hmax]
      exact ⟨rfl, min_le_right _ _⟩

theorem effectiveTimeout_amended_witness :
    (0 : ℚ) < 5 ∧
    serialEffectiveCommandTimeout 5 2 = min 5 2 ∧
    serialEffectiveCommandTimeout 5 2 ≤ 2 ∧
    sshEffectiveCommandTimeout 5 2 = min 5 2 ∧
    sshEffectiveCommandTimeout 5 2 ≤ 2 := by
  have h := effectiveTimeout_amended 5 2 (by norm_num)
  have hs := h.1.2 (by norm_num)
  have hh := h.2.2 (by norm_num)
  exact ⟨by norm_num, hs.1, hs.2, hh.1, hh.2⟩

/-- C3: in `auto` mode, whenever the failed SSH attempt's transcript contains
the substring "Authentication failed", the orchestrator aborts immediately
with guidance (exit code 255) and performs neither the serial-holder cleanup
nor any serial fallback run. -/
theorem auto_mode_auth_failure_aborts (t : String)
    (first second : SerialAttemptResult)
    (h : containsSub t "Authentication failed" = true) :
    autoAfterSshFailure t first second = ([AutoEvent.authGuidance], 255) ∧
    AutoEvent.serialRun ∉ (autoAfterSshFailure t first second).1 ∧
    AutoEvent.cleanupHolders ∉ (autoAfterSshFailure t first second).1 := by
  have hlow : lowerContains t "authentication failed" = true :=
    lowerContains_of_containsSub t "Authentication failed" "authentication failed"
      (by decide) h
  have hauth : isSshAuthFailure t = true := by
    simp [isSshAuthFailure, SSH_AUTH_FAILURE_SIGNALS, hlow]
  have hres : autoAfterSshFailure t first second = ([AutoEvent.authGuidance], 255) := by
    simp [autoAfterSshFailure, hauth]
  refine ⟨hres, ?_, ?_⟩ <;> rw [hres] <;> simp

set_option maxRecDepth 4096 in
theorem auto_mode_auth_failure_aborts_witness :
    autoAfterSshFailure "SSH: Authentication failed."
        ⟨0, "", ""⟩ ⟨0, "", ""⟩ = ([AutoEvent.authGuidance], 255) :=
  (auto_mode_auth_failure_aborts "SSH: Authentication failed."
    ⟨0, "", ""⟩ ⟨0, "", ""⟩ (by decide)).1

/-! ## C10: bounded transcript buffer in `_read_until_any` (lines 122-145)

Source: `buf += decode(data); if len(buf) > max_buffer_chars: buf = buf[-max_buffer_chars:]`,
with `max_buffer_chars = 200_000`; every regex search runs against `buf`. -/

/-- `max_buffer_chars` default of `_read_until_any`. -/
def MAX_BUFFER_CHARS : Nat := 200000

/-- Python `l[-n:]`: the last `n` elements (all of `l` when `l` is shorter). -/
def lastChars (n : Nat) (l : List Char) : List Char :=
  l.drop (l.length - n)

/-- One buffer update of `_read_until_any`'s read tick. -/
def updateBuf (buf chunk : List Char) : List Char :=
  if MAX_BUFFER_CHARS < (buf ++ chunk).length then
    lastChars MAX_BUFFER_CHARS (buf ++ chunk)
  else buf ++ chunk

/-- The accumulated pattern-matching buffer after the given sequence of
decoded read chunks. -/
def readLoopBuffer (chunks : List (List Char)) : List Char :=
  chunks.foldl updateBuf []

theorem lastChars_of_le (n : Nat) (l : List Char) (h : l.length ≤ n) :
    lastChars n l = l := by
  unfold lastChars
  rw [Nat.sub_eq_zero_of_le h, List.drop_zero]

theorem length_lastChars (n : Nat) (l : List Char) :
    (lastChars n l).length = l.length - (l.length - n) := by
  unfold lastChars
  rw [List.length_drop]

theorem lastChars_suffix (n : Nat) (l : List Char) : lastChars n l <:+ l :=
  List.drop_suffix _ _

theorem lastChars_append_right (n : Nat) (p b : List Char) (h : n ≤ b.length) :
    lastChars n (p ++ b) = lastChars n b := by
  unfold lastChars
  rw [List.length_append]
  have hlen : p.length + b.length - n = p.length + (b.length - n) := by omega
  rw [hlen, List.drop_append]

theorem updateBuf_lastChars (s c : List Char) :
    updateBuf (lastChars MAX_BUFFER_CHARS s) c = lastChars MAX_BUFFER_CHARS (s ++ c) := by
  by_cases hs : s.length ≤ MAX_BUFFER_CHARS
  · rw [lastChars_of_le _ _ hs]
    unfold updateBuf
    by_cases hb : MAX_BUFFER_CHARS < (s ++ c).length
    · rw [if_pos hb]
    · rw [if_neg hb, lastChars_of_le _ _ (Nat.le_of_not_lt hb)]
  · have hlen : (lastChars MAX_BUFFER_CHARS s).length = MAX_BUFFER_CHARS := by
      rw [length_lastChars]; omega
    obtain ⟨p, hp⟩ := lastChars_suffix MAX_BUFFER_CHARS s
    by_cases hc : c = []
    · subst hc
      unfold updateBuf
      simp only [List.append_nil]
      rw [if_neg (by omega)]
    · have hcpos : 0 < c.length := List.length_pos.mpr hc
      unfold updateBuf
      rw [if_pos (by rw [List.length_append, hlen]; omega)]
      conv_rhs => rw [← hp]
      rw [List.append_assoc,
        lastChars_append_right MAX_BUFFER_CHARS p (lastChars MAX_BUFFER_CHARS s ++ c)
          (by rw [List.length_append, hlen]; omega)]

theorem foldl_updateBuf_lastChars (chunks : List (List Char)) :
    ∀ s : List Char,
      chunks.foldl updateBuf (lastChars MAX_BUFFER_CHARS s) =
      lastChars MAX_BUFFER_CHARS (s ++ chunks.flatten) := by
  induction chunks with
  | nil =>
    intro s
    rw [List.foldl_nil, List.flatten_nil, List.append_nil]
  | cons c cs ih =>
    intro s
    rw [List.foldl_cons, updateBuf_lastChars, ih (s ++ c), List.flatten_cons,
      List.append_assoc]

/-- C10: after every read tick of `_read_until_any` the accumulated buffer is
exactly the trailing `MAX_BUFFER_CHARS`-character window of everything read so
far — in particular it never exceeds 200,000 characters, and it is a suffix of
the full input, so text occurring only in the discarded prefix is not part of
what the pattern search sees. -/
theorem read_buffer_trailing_window (chunks : List (List Char)) :
    (readLoopBuffer chunks).length ≤ MAX_BUFFER_CHARS ∧
    readLoopBuffer chunks = lastChars MAX_BUFFER_CHARS chunks.flatten ∧
    readLoopBuffer chunks <:+ chunks.flatten := by
  have hnil : ([] : List Char) = lastChars MAX_BUFFER_CHARS [] := by
    rw [lastChars_of_le]; simp
  have heq : readLoopBuffer chunks = lastChars MAX_BUFFER_CHARS chunks.flatten := by
    unfold readLoopBuffer
    rw [hnil, foldl_updateBuf_lastChars, List.nil_append]
  refine ⟨?_, heq, ?_⟩
  · rw [heq, length_lastChars]; omega
  · rw [heq]; exact lastChars_suffix _ _

/-! ## C9: SSH batch execution (`_try_run_commands_over_ssh`, lines 242-280)

Each command is paired with the time remaining before the overall deadline
when the loop reaches it (`overall_deadline - now`) and its remote exit
status. Mirrors: `remaining = max(0.1, overall_deadline - now)`; the dead
`if remaining <= 0: return 5` check; and the first-nonzero accumulation
`if status != 0 and exit_code == 0: exit_code = status`. -/

/-- The SSH command loop: returns the batch exit code and how many commands
were executed. -/
def sshBatchRun : List (ℚ × Int) → Int → Int × Nat
  | [], acc => (acc, 0)
  | (r, s) :: rest, acc =>
    if max (1/10 : ℚ) r ≤ 0 then (5, 0)
    else
      let acc1 := if s ≠ 0 ∧ acc = 0 then s else acc
      let res := sshBatchRun rest acc1
      (res.1, res.2 + 1)

/-- Modelled from the spec's words: the first nonzero remote exit status, or
0 when every command succeeded. Used as the refinement target for
`sshBatchRun`. -/
def firstNonzeroStatus (ss : List Int) : Int :=
  (ss.find? (fun s => decide (s ≠ 0))).getD 0

theorem sshBatchRun_general (items : List (ℚ × Int)) :
    ∀ acc : Int,
      (sshBatchRun items acc).2 = items.length ∧
      (sshBatchRun items acc).1 =
        (if acc = 0 then firstNonzeroStatus (items.map Prod.snd) else acc) := by
  induction items with
  | nil =>
    intro acc
    refine ⟨rfl, ?_⟩
    by_cases h : acc = 0 <;> simp [sshBatchRun, firstNonzeroStatus, h]
  | cons it rest ih =>
    intro acc
    obtain ⟨r, s⟩ := it
    have hguard : ¬ max (1/10 : ℚ) r ≤ 0 := by
      have h1 : (1/10 : ℚ) ≤ max (1/10 : ℚ) r := le_max_left _ _
      intro h
      linarith
    constructor
    · simp only [sshBatchRun, if_neg hguard]
      rw [(ih _).1, List.length_cons]
    · simp only [sshBatchRun, if_neg hguard]
      rw [(ih _).2]
      by_cases hacc : acc = 0
      · by_cases hs : s = 0
        · subst hs
          simp [hacc, firstNonzeroStatus, List.find?]
        · simp [hacc, hs, firstNonzeroStatus, List.find?]
      · have h1 : ¬ (s ≠ 0 ∧ acc = 0) := by tauto
        simp [hacc, h1]

/-- C9: in the SSH executor a nonzero remote exit status does not abort the
batch — every command in the list is executed (the count of executed commands
equals the list length, whatever the per-command remaining-budget values are)
and the batch exit code is the first nonzero remote status, or 0 when all
succeeded. -/
theorem ssh_batch_runs_all_first_nonzero (items : List (ℚ × Int)) :
    (sshBatchRun items 0).2 = items.length ∧
    (sshBatchRun items 0).1 = firstNonzeroStatus (items.map Prod.snd) := by
  have h := sshBatchRun_general items 0
  refine ⟨h.1, ?_⟩
  rw [h.2, if_pos rfl]

/-! ## C6: prompt matcher (`_looks_like_shell_prompt`, lines 215-224)

Source: the caller-supplied `prompt_re` is tried first, then the generic
`fallback_prompt_re`; if neither regex fired, each `\r?\n`-separated line has
ANSI CSI escape sequences removed with `ansi_re.sub("", raw_line)` where
`ansi_re = \x1b\[[0-9;]*[A-Za-z]`, and the stripped line is tested for the
`@`/`:`/`$`-or-`#` shell-prompt heuristic. The two regexes are abstracted as
`String → Bool` matchers; the CSI stripper and the per-line heuristic are
embedded executably. -/

/-- The ESC character `\x1b`. -/
def escChar : Char := Char.ofNat 27

/-- Characters allowed in the parameter body of a CSI sequence (`[0-9;]`). -/
def isCsiParamChar (c : Char) : Bool := c.isDigit || c == ';'

/-- One character of the left-to-right scan performed by Python's
`ansi_re.sub("", line)`: the state is `(emitted text, pending prefix of a
potential CSI sequence)`. A pending prefix is flushed verbatim as soon as the
next character shows it cannot be completed to `ESC [ params letter`. -/
def ansiStep (st : List Char × List Char) (c : Char) : List Char × List Char :=
  match st with
  | (out, []) =>
    if c == escChar then (out, [escChar]) else (out ++ [c], [])
  | (out, [e]) =>
    if c == '[' then (out, [e, '[']) else
    if c == escChar then (out ++ [e], [escChar]) else (out ++ [e, c], [])
  | (out, e1 :: e2 :: rest) =>
    if isCsiParamChar c then (out, (e1 :: e2 :: rest) ++ [c])
    else if c.isAlpha then (out, [])
    else if c == escChar then (out ++ (e1 :: e2 :: rest), [escChar])
    else (out ++ (e1 :: e2 :: rest) ++ [c], [])

/-- Embedding of `ansi_re.sub("", line)`. -/
def stripAnsi (line : List Char) : List Char :=
  (line.foldl ansiStep ([], [])).1 ++ (line.foldl ansiStep ([], [])).2

/-- Embedding of `re.split(r"\r?\n", text)`. -/
def splitLines : List Char → List (List Char)
  | [] => [[]]
  | '\r' :: '\n' :: rest => [] :: splitLines rest
  | '\n' :: rest => [] :: splitLines rest
  | c :: rest =>
    match splitLines rest with
    | [] => [[c]]
    | l :: ls => (c :: l) :: ls

/-- Per-line heuristic of `_looks_like_shell_prompt`: after ANSI stripping the
line must contain `@`, `:` and one of `$`/`#`. -/
def lineLooksPrompt (line : List Char) : Bool :=
  ((stripAnsi line).contains '@' && (stripAnsi line).contains ':') &&
  ((stripAnsi line).contains '$' || (stripAnsi line).contains '#')

/-- Embedding of `_looks_like_shell_prompt`: caller regex and generic fallback
regex on the raw text first (in that order, short-circuit), then the
ANSI-stripped line heuristic. -/
def looksLikeShellPrompt (prompt fallback : String → Bool) (text : String) : Bool :=
  if prompt text || fallback text then true
  else (splitLines text.toList).any lineLooksPrompt

/-- A full ANSI CSI sequence `ESC [ params letter`. -/
inductive CsiSeq : List Char → Prop
  | mk (params : List Char) (letter : Char)
      (hp : ∀ c ∈ params, isCsiParamChar c = true) (hl : letter.isAlpha = true) :
      CsiSeq (escChar :: '[' :: (params ++ [letter]))

/-- `CsiInsertion xs ys`: `ys` is `xs` with complete ANSI CSI sequences
inserted at arbitrary positions. -/
inductive CsiInsertion : List Char → List Char → Prop
  | nil : CsiInsertion [] []
  | keep (c : Char) {xs ys : List Char} :
      CsiInsertion xs ys → CsiInsertion (c :: xs) (c :: ys)
  | ins {s xs ys : List Char} :
      CsiSeq s → CsiInsertion xs ys → CsiInsertion xs (s ++ ys)

theorem CsiInsertion.refl (xs : List Char) : CsiInsertion xs xs := by
  induction xs with
  | nil => exact CsiInsertion.nil
  | cons c cs ih => exact CsiInsertion.keep c ih

theorem isCsiParamChar_of_isAlpha (c : Char) (h : c.isAlpha = true) :
    isCsiParamChar c = false := by
  unfold isCsiParamChar
  simp only [Char.isAlpha, Char.isUpper, Char.isLower, Char.isDigit,
    Bool.or_eq_true, Bool.and_eq_true, decide_eq_true_eq, ge_iff_le,
    UInt32.le_def, BitVec.le_def] at h ⊢
  simp only [Bool.or_eq_false_iff, Bool.and_eq_false_iff, decide_eq_false_iff_not, not_le,
    UInt32.lt_def, BitVec.lt_def, UInt32.le_def, BitVec.le_def, beq_eq_false_iff_ne, ne_eq]
  have e48 : (UInt32.toBitVec 48).toNat = 48 := rfl
  have e57 : (UInt32.toBitVec 57).toNat = 57 := rfl
  have e65 : (UInt32.toBitVec 65).toNat = 65 := rfl
  have e90 : (UInt32.toBitVec 90).toNat = 90 := rfl
  have e97 : (UInt32.toBitVec 97).toNat = 97 := rfl
  have e122 : (UInt32.toBitVec 122).toNat = 122 := rfl
  rw [e48, e57]; rw [e65, e90, e97, e122] at h
  constructor
  · omega
  · intro hceq
    subst hceq
    rcases h with ⟨h1, h2⟩ | ⟨h1, h2⟩
    · revert h1; decide
    · revert h1; decide

theorem ansiStep_empty_keep (out : List Char) (c : Char) (h : (c == escChar) = false) :
    ansiStep (out, []) c = (out ++ [c], []) := by
  simp [ansiStep, h]

theorem foldl_ansiStep_params (ps : List Char) :
    (∀ c ∈ ps, isCsiParamChar c = true) →
    ∀ out acc : List Char,
      ps.foldl ansiStep (out, escChar :: '[' :: acc) =
        (out, escChar :: '[' :: (acc ++ ps)) := by
  induction ps with
  | nil =>
    intro _ out acc
    rw [List.foldl_nil, List.append_nil]
  | cons c cs ih =>
    intro hps out acc
    have hc : isCsiParamChar c = true := hps c (List.mem_cons_self c cs)
    rw [List.foldl_cons]
    have hstep : ansiStep (out, escChar :: '[' :: acc) c =
        (out, escChar :: '[' :: (acc ++ [c])) := by
      simp [ansiStep, hc]
    rw [hstep, ih (fun a ha => hps a (List.mem_cons_of_mem c ha)) out (acc ++ [c])]
    simp

theorem foldl_ansiStep_csi (s : List Char) (hs : CsiSeq s) (out : List Char) :
    s.foldl ansiStep (out, []) = (out, []) := by
  cases hs with
  | mk params letter hp hl =>
    rw [List.foldl_cons]
    have h1 : ansiStep (out, []) escChar = (out, [escChar]) := by simp [ansiStep]
    rw [h1, List.foldl_cons]
    have h2 : ansiStep (out, [escChar]) '[' = (out, [escChar, '[']) := by simp [ansiStep]
    rw [h2, List.foldl_append]
    have h3 : [escChar, '['] = escChar :: '[' :: ([] : List Char) := rfl
    rw [h3, foldl_ansiStep_params params hp out [], List.foldl_cons, List.foldl_nil]
    have h4 : isCsiParamChar letter = false := isCsiParamChar_of_isAlpha letter hl
    simp [ansiStep, h4, hl]

theorem foldl_ansiStep_csiInsertion :
    ∀ {xs ys : List Char}, CsiInsertion xs ys →
      (∀ c ∈ xs, c ≠ escChar) →
      ∀ out : List Char, ys.foldl ansiStep (out, []) = (out ++ xs, []) := by
  intro xs ys hins
  induction hins with
  | nil =>
    intro _ out
    rw [List.foldl_nil, List.append_nil]
  | keep c htail ih =>
    intro hesc out
    have hc : c ≠ escChar := hesc c (List.mem_cons_self _ _)
    have hcb : (c == escChar) = false := by simp [hc]
    rw [List.foldl_cons, ansiStep_empty_keep _ _ hcb,
      ih (fun a ha => hesc a (List.mem_cons_of_mem c ha)) (out ++ [c])]
    simp
  | ins hs htail ih =>
    intro hesc out
    rw [List.foldl_append, foldl_ansiStep_csi _ hs out, ih hesc out]

theorem stripAnsi_csiInsertion {xs ys : List Char} (hins : CsiInsertion xs ys)
    (hesc : ∀ c ∈ xs, c ≠ escChar) : stripAnsi ys = xs := by
  unfold stripAnsi
  rw [foldl_ansiStep_csiInsertion hins hesc []]
  simp

theorem lineLooksPrompt_csiInsertion {xs ys : List Char} (hins : CsiInsertion xs ys)
    (hesc : ∀ c ∈ xs, c ≠ escChar) : lineLooksPrompt ys = lineLooksPrompt xs := by
  unfold lineLooksPrompt
  rw [stripAnsi_csiInsertion hins hesc,
    stripAnsi_csiInsertion (CsiInsertion.refl xs) hesc]

/-- C6: the prompt matcher evaluates the caller-supplied prompt matcher first
(so a caller match alone forces a positive answer, whatever the fallback
does), falls through to the generic fallback matcher and then to the
line-based heuristic, and the line-based heuristic is computed on
ANSI-CSI-stripped lines, so inserting cursor-control escape sequences into a
line never changes the heuristic's verdict. -/
theorem prompt_matcher_precedence_and_ansi_strip :
    (∀ (prompt fallback : String → Bool) (text : String),
        looksLikeShellPrompt prompt fallback text =
          (prompt text || (fallback text ||
            (splitLines text.toList).any lineLooksPrompt))) ∧
    (∀ (prompt fallback : String → Bool) (text : String),
        prompt text = true → looksLikeShellPrompt prompt fallback text = true) ∧
    (∀ xs ys : List Char, CsiInsertion xs ys → (∀ c ∈ xs, c ≠ escChar) →
        lineLooksPrompt ys = lineLooksPrompt xs) := by
  refine ⟨?_, ?_, ?_⟩
  · intro prompt fallback text
    cases hp : prompt text <;> cases hf : fallback text <;>
      simp [looksLikeShellPrompt, hp, hf]
  · intro prompt fallback text h
    simp [looksLikeShellPrompt, h]
  · intro xs ys hins hesc
    exact lineLooksPrompt_csiInsertion hins hesc

theorem prompt_matcher_precedence_and_ansi_strip_witness :
    looksLikeShellPrompt (fun s => s == "u@h:~$ ") (fun _ => false) "u@h:~$ " = true ∧
    lineLooksPrompt [escChar, '[', '0', 'm', 'a'] = lineLooksPrompt ['a'] := by
  constructor
  · exact prompt_matcher_precedence_and_ansi_strip.2.1
      (fun s => s == "u@h:~$ ") (fun _ => false) "u@h:~$ " (by decide)
  · refine prompt_matcher_precedence_and_ansi_strip.2.2 ['a']
      [escChar, '[', '0', 'm', 'a'] ?_ (by decide)
    exact CsiInsertion.ins
      (CsiSeq.mk ['0'] 'm' (by decide) (by decide))
      (CsiInsertion.keep 'a' CsiInsertion.nil)

/-! ## C7: serial open retry policy (`_probe_port`, lines 382-450; constants
lines 39-45)

Source: `for attempt in range(1, SERIAL_OPEN_RETRIES + 1)` around
`_open_serial`; a `SerialException` is retried after
`time.sleep(SERIAL_OPEN_RETRY_DELAY_S)` only while `attempt <
SERIAL_OPEN_RETRIES` and `_is_retryable_serial_error(exc)`; otherwise the
probe returns a `no_terminal` result with transcript `"serial error: ..."`;
a `PermissionError` is immediately fatal with `"permission denied: ..."`. -/

/-- `SERIAL_OPEN_RETRIES` (total open attempts). -/
def SERIAL_OPEN_RETRIES : Nat := 3

/-- `SERIAL_OPEN_RETRY_DELAY_S` (fixed delay slept before each retry). -/
def SERIAL_OPEN_RETRY_DELAY_S : ℚ := 6/10

/-- `SERIAL_RETRY_ERROR_SNIPPETS`. -/
def SERIAL_RETRY_ERROR_SNIPPETS : List String :=
  ["device reports readiness to read but returned no data",
   "multiple access on port", "could not open port"]

/-- Embedding of `_is_retryable_serial_error`: the lower-cased error message
must contain one of the transient snippets. -/
def isRetryableSerialError (msg : String) : Bool :=
  SERIAL_RETRY_ERROR_SNIPPETS.any (fun s => lowerContains msg s)

/-- The `PortProbeResult` dataclass. -/
structure PortProbeResult where
  device : String
  transcript : String
  state : String
deriving DecidableEq

/-- Outcome of one `_open_serial` attempt (and, on success, of the probe
session run under the opened port). -/
inductive OpenOutcome where
  | ok (r : PortProbeResult)
  | serialExc (msg : String)
  | permExc (msg : String)

/-- The retry loop of `_probe_port` around `_open_serial`, with fuel equal to
the remaining attempts. Returns the probe result, the number of the attempt
on which the loop stopped, and how many times it slept
`SERIAL_OPEN_RETRY_DELAY_S` between attempts. -/
def probeOpenGo (d : String) (openRes : Nat → OpenOutcome) :
    Nat → Nat → PortProbeResult × Nat × Nat
  | 0, _ => (⟨d, "", "no_terminal"⟩, 0, 0)
  | fuel + 1, attempt =>
    match openRes attempt with
    | OpenOutcome.ok r => (r, attempt, 0)
    | OpenOutcome.serialExc e =>
      if attempt < SERIAL_OPEN_RETRIES ∧ isRetryableSerialError e = true then
        let res := probeOpenGo d openRes fuel (attempt + 1)
        (res.1, res.2.1, res.2.2 + 1)
      else (⟨d, "serial error: " ++ e, "no_terminal"⟩, attempt, 0)
    | OpenOutcome.permExc e =>
      (⟨d, "permission denied: " ++ e, "no_terminal"⟩, attempt, 0)

/-- `_probe_port`'s open/retry loop entered at attempt 1. -/
def probePortOpenLoop (d : String) (openRes : Nat → OpenOutcome) :
    PortProbeResult × Nat × Nat :=
  probeOpenGo d openRes SERIAL_OPEN_RETRIES 1

theorem probeOpenGo_attempts_le (d : String) (f : Nat → OpenOutcome) :
    ∀ fuel attempt, attempt ≤ SERIAL_OPEN_RETRIES →
      (probeOpenGo d f fuel attempt).2.1 ≤ SERIAL_OPEN_RETRIES := by
  intro fuel
  induction fuel with
  | zero =>
    intro attempt _
    simp [probeOpenGo]
  | succ n ih =>
    intro attempt h
    simp only [probeOpenGo]
    cases hr : f attempt with
    | ok r => exact h
    | serialExc e =>
      by_cases hg : attempt < SERIAL_OPEN_RETRIES ∧ isRetryableSerialError e = true
      · simp only [if_pos hg]
        exact ih (attempt + 1) (by omega)
      · simp only [if_neg hg]
        exact h
    | permExc e => exact h

/-- C7: open failures whose message contains one of the enumerated transient
snippets are retried — with the fixed `SERIAL_OPEN_RETRY_DELAY_S` sleep
between attempts — up to the `SERIAL_OPEN_RETRIES = 3` attempt bound (three
transient failures give exactly 3 attempts and 2 sleeps, ending in a
`no_terminal` error result), while a first-attempt failure that matches no
transient snippet is fatal immediately: exactly 1 attempt, no sleep, and a
`no_terminal` result carrying the error; in every case at most 3 attempts
are made. -/
theorem serial_open_retry_policy :
    (∀ (msg snippet : String), snippet ∈ SERIAL_RETRY_ERROR_SNIPPETS →
        lowerContains msg snippet = true → isRetryableSerialError msg = true) ∧
    (∀ (d : String) (f : Nat → OpenOutcome) (e : String),
        f 1 = OpenOutcome.serialExc e → isRetryableSerialError e = false →
        probePortOpenLoop d f = (⟨d, "serial error: " ++ e, "no_terminal"⟩, 1, 0)) ∧
    (∀ (d : String) (f : Nat → OpenOutcome) (e1 e2 e3 : String),
        f 1 = OpenOutcome.serialExc e1 → f 2 = OpenOutcome.serialExc e2 →
        f 3 = OpenOutcome.serialExc e3 →
        isRetryableSerialError e1 = true → isRetryableSerialError e2 = true →
        probePortOpenLoop d f = (⟨d, "serial error: " ++ e3, "no_terminal"⟩, 3, 2)) ∧
    (∀ (d : String) (f : Nat → OpenOutcome),
        (probePortOpenLoop d f).2.1 ≤ SERIAL_OPEN_RETRIES) := by
  refine ⟨?_, ?_, ?_, ?_⟩
  · intro msg snippet hmem hlc
    exact List.any_eq_true.mpr ⟨snippet, hmem, hlc⟩
  · intro d f e h1 hre
    have hstart : probePortOpenLoop d f = probeOpenGo d f 3 1 := rfl
    rw [hstart]
    simp only [probeOpenGo, h1]
    rw [if_neg (by simp [hre])]
  · intro d f e1 e2 e3 h1 h2 h3 hr1 hr2
    have hstart : probePortOpenLoop d f = probeOpenGo d f 3 1 := rfl
    rw [hstart]
    simp only [probeOpenGo, h1, h2, h3]
    rw [if_pos (by exact ⟨by norm_num [SERIAL_OPEN_RETRIES], hr1⟩),
      if_pos (by exact ⟨by norm_num [SERIAL_OPEN_RETRIES], hr2⟩),
      if_neg (by simp [SERIAL_OPEN_RETRIES])]
  · intro d f
    exact probeOpenGo_attempts_le d f SERIAL_OPEN_RETRIES 1 (by norm_num [SERIAL_OPEN_RETRIES])

theorem serial_open_retry_policy_witness :
    isRetryableSerialError "SerialException: Multiple access on port /dev/ttyUSB0" = true ∧
    probePortOpenLoop "/dev/ttyUSB0" (fun _ => OpenOutcome.serialExc "boom") =
      (⟨"/dev/ttyUSB0", "serial error: boom", "no_terminal"⟩, 1, 0) := by
  constructor
  · exact serial_open_retry_policy.1
      "SerialException: Multiple access on port /dev/ttyUSB0"
      "multiple access on port" (by decide) (by decide)
  · exact serial_open_retry_policy.2.1 "/dev/ttyUSB0"
      (fun _ => OpenOutcome.serialExc "boom") "boom" rfl (by decide)

/-! ## C5: stable process exit codes

serial_command_runner.main (lines 584-693): selection-state dispatch (12/13),
wake-failure classification (12/13/3), marker-sync failure (4), overall
timeout (5), per-command timeout (6), fatal serial error (10), success (0).
terminal_command_runner.main serial branch (lines 559-599): rc 0 passes
through, alive-no-shell maps to 13, no-serial/unavailable maps to 12,
anything else passes through. -/

/-- What `serial_command_runner.main` observed during one run, after device
selection: whether the open loop failed fatally, the selection state, the
wake outcome, the ready-marker sync outcome, and for each command whether the
overall deadline had passed before it started and whether its unique marker
appeared in time. -/
structure SerialRunObs where
  openFatal : Bool
  selectionState : String
  wakeReady : Bool
  wakeOut : String
  syncOk : Bool
  commandSteps : List (Bool × Bool)

/-- The command loop of `serial_command_runner.main` (lines 661-683): 5 when
the overall deadline has passed before a command, 6 when a command's marker
did not appear, 0 when all commands completed. -/
def runCommandsExit : List (Bool × Bool) → Int
  | [] => 0
  | (deadlinePassed, ok) :: rest =>
    if deadlinePassed then 5
    else if ok = false then 6
    else runCommandsExit rest

/-- The exit code `serial_command_runner.main` returns for a run with the
given observations. -/
def serialMainExitCode (obs : SerialRunObs) : Int :=
  if obs.selectionState = "no_terminal" then NO_SERIAL_CONNECTION_EXIT_CODE
  else if obs.selectionState = "alive_no_shell" then ALIVE_NO_LINUX_SHELL_EXIT_CODE
  else if obs.openFatal then 10
  else if obs.wakeReady = false then
    if isNoSerialConnectionOutput obs.wakeOut then NO_SERIAL_CONNECTION_EXIT_CODE
    else if obs.wakeOut.isEmpty = false then ALIVE_NO_LINUX_SHELL_EXIT_CODE
    else 3
  else if obs.syncOk = false then 4
  else runCommandsExit obs.commandSteps

/-- The exit code `terminal_command_runner.main` returns in `serial` mode,
as a function of the serial subprocess result. -/
def terminalSerialModeExit (rc : Int) (out err : String) : Int :=
  if rc = 0 then 0
  else if isSerialAliveNoLinuxShellResult rc out err then ALIVE_NO_LINUX_SHELL_EXIT_CODE
  else if isNoSerialConnectionResult rc out err || isSerialUnavailableResult out err then
    NO_SERIAL_CONNECTION_EXIT_CODE
  else rc

theorem runCommandsExit_all_ok : ∀ n : Nat,
    runCommandsExit (List.replicate n (false, true)) = 0 := by
  intro n
  induction n with
  | zero => rfl
  | succ m ih =>
    rw [List.replicate_succ]
    simpa [runCommandsExit] using ih

/-- C5: the classification exit codes are fixed and pairwise distinct — 0
success, 12 no-terminal/unreachable, 13 alive-but-no-Linux-shell, 4 marker
sync failure, 6 per-command timeout, 5 overall timeout — and both runners map
each classification to its stable code: the serial runner returns 12 for a
`no_terminal` selection or a silent wake failure, 13 for an
`alive_no_shell` selection or a noisy wake failure, 4 when the ready-marker
sync fails, 5 when the overall deadline passes before a command, 6 when a
command times out, and 0 when every command completes; the orchestrator's
serial mode maps the subprocess codes 12/13/0 to themselves. -/
theorem exit_codes_distinct_and_stable :
    ([0, NO_SERIAL_CONNECTION_EXIT_CODE, ALIVE_NO_LINUX_SHELL_EXIT_CODE,
        4, 6, 5] : List Int).Nodup ∧
    NO_SERIAL_CONNECTION_EXIT_CODE = 12 ∧
    ALIVE_NO_LINUX_SHELL_EXIT_CODE = 13 ∧
    (∀ (op wr : Bool) (wo : String) (so : Bool) (cs : List (Bool × Bool)),
        serialMainExitCode ⟨op, "no_terminal", wr, wo, so, cs⟩ =
          NO_SERIAL_CONNECTION_EXIT_CODE) ∧
    (∀ (op wr : Bool) (wo : String) (so : Bool) (cs : List (Bool × Bool)),
        serialMainExitCode ⟨op, "alive_no_shell", wr, wo, so, cs⟩ =
          ALIVE_NO_LINUX_SHELL_EXIT_CODE) ∧
    (∀ (wo : String) (so : Bool) (cs : List (Bool × Bool)),
        isNoSerialConnectionOutput wo = true →
        serialMainExitCode ⟨false, "shell", false, wo, so, cs⟩ =
          NO_SERIAL_CONNECTION_EXIT_CODE) ∧
    (∀ (wo : String) (so : Bool) (cs : List (Bool × Bool)),
        isNoSerialConnectionOutput wo = false → wo.isEmpty = false →
        serialMainExitCode ⟨false, "shell", false, wo, so, cs⟩ =
          ALIVE_NO_LINUX_SHELL_EXIT_CODE) ∧
    (∀ (wo : String) (cs : List (Bool × Bool)),
        serialMainExitCode ⟨false, "shell", true, wo, false, cs⟩ = 4) ∧
    (∀ (wo : String) (ok : Bool) (rest : List (Bool × Bool)),
        serialMainExitCode ⟨false, "shell", true, wo, true, (true, ok) :: rest⟩ = 5) ∧
    (∀ (wo : String) (rest : List (Bool × Bool)),
        serialMainExitCode ⟨false, "shell", true, wo, true, (false, false) :: rest⟩ = 6) ∧
    (∀ (wo : String) (n : Nat),
        serialMainExitCode ⟨false, "shell", true, wo, true,
          List.replicate n (false, true)⟩ = 0) ∧
    (terminalSerialModeExit NO_SERIAL_CONNECTION_EXIT_CODE "" "" =
        NO_SERIAL_CONNECTION_EXIT_CODE ∧
      terminalSerialModeExit ALIVE_NO_LINUX_SHELL_EXIT_CODE "" "" =
        ALIVE_NO_LINUX_SHELL_EXIT_CODE ∧
      terminalSerialModeExit 0 "" "" = 0) := by
  refine ⟨by decide, rfl, rfl, ?_, ?_, ?_, ?_, ?_, ?_, ?_, ?_, ?_⟩
  · intro op wr wo so cs
    simp [serialMainExitCode]
  · intro op wr wo so cs
    simp [serialMainExitCode, NO_SERIAL_CONNECTION_EXIT_CODE,
      ALIVE_NO_LINUX_SHELL_EXIT_CODE]
  · intro wo so cs h
    simp [serialMainExitCode, h]
  · intro wo so cs h1 h2
    simp [serialMainExitCode, h1, h2]
  · intro wo cs
    simp [serialMainExitCode]
  · intro wo ok rest
    simp [serialMainExitCode, runCommandsExit]
  · intro wo rest
    simp [serialMainExitCode, runCommandsExit]
  · intro wo n
    simp [serialMainExitCode, runCommandsExit_all_ok]
  · refine ⟨by decide, by decide, by decide⟩

theorem exit_codes_distinct_and_stable_witness :
    serialMainExitCode ⟨false, "shell", false, "x: connection appears inactive", true, []⟩ =
      NO_SERIAL_CONNECTION_EXIT_CODE ∧
    serialMainExitCode ⟨false, "shell", false, "garbage!", true, []⟩ =
      ALIVE_NO_LINUX_SHELL_EXIT_CODE := by
  constructor
  · exact (exit_codes_distinct_and_stable.2.2.2.2.2.1)
      "x: connection appears inactive" true [] (by decide)
  · exact (exit_codes_distinct_and_stable.2.2.2.2.2.2.1)
      "garbage!" true [] (by decide) (by decide)

/-! ## C8: probing a device already at a shell prompt (`_probe_port`,
lines 411-441)

Source: Step A sends an empty line, probes, and only if no shell prompt is
seen sends a second empty line and probes again; Steps B (login), C
(password) and D (final login→password sequence) are each guarded by
`not _is_shell()`, so they are skipped entirely once the transcript matches
a shell prompt; the final state is `"shell"` when `_is_shell()`, otherwise
`alive_no_shell`/`no_terminal` by output presence. Probe reads are modelled
by the stream `dev`; appending an empty probe result to the transcript is the
identity, so unconditional appends are faithful to the source's
append-if-nonempty. -/

/-- Python truthiness of an `Optional[str]`: `None` and `""` are falsy. -/
def optTruthy (o : Option String) : Bool := !(o.getD "").isEmpty

/-- The probe environment: the two shell-prompt matchers, the login/password
prompt matchers, the configured credentials, and the read stream. -/
structure ProbeEnv where
  prompt : String → Bool
  fallback : String → Bool
  login : String → Bool
  password : String → Bool
  username : Option String
  pwd : Option String
  dev : Nat → String

/-- `_is_shell()` of the probe session. -/
def isShellText (e : ProbeEnv) (t : String) : Bool :=
  looksLikeShellPrompt e.prompt e.fallback t

/-- Transcript accumulated by Step A (the initial empty-line wake). -/
def probeWakeTranscript (e : ProbeEnv) : String :=
  if isShellText e (e.dev 0) then e.dev 0 else e.dev 0 ++ e.dev 1

/-- Number of probe reads consumed by Step A. -/
def probeWakeReads (e : ProbeEnv) : Nat :=
  if isShellText e (e.dev 0) then 1 else 2

/-- Lines written to the serial port during Step A (empty wake lines). -/
def probeWakeWrites (e : ProbeEnv) : List String :=
  if isShellText e (e.dev 0) then [""] else ["", ""]

/-- Result of the probe session body of `_probe_port`. -/
structure ProbeOut where
  transcript : String
  state : String
  writes : List String

/-- The probe session body of `_probe_port` (Steps A-D and the final state
classification). -/
def probeSession (e : ProbeEnv) : ProbeOut :=
  let parts1 := probeWakeTranscript e
  let k1 := probeWakeReads e
  let ws1 := probeWakeWrites e
  let stepB : String × Nat × List String :=
    if isShellText e parts1 = false ∧ e.login parts1 = true ∧
        optTruthy e.username = true then
      (parts1 ++ e.dev k1, k1 + 1, ws1 ++ [e.username.getD ""])
    else (parts1, k1, ws1)
  let parts2 := stepB.1
  let k2 := stepB.2.1
  let ws2 := stepB.2.2
  let stepC : String × Nat × List String :=
    if isShellText e parts2 = false ∧ e.password parts2 = true ∧
        optTruthy e.pwd = true then
      (parts2 ++ e.dev k2, k2 + 1, ws2 ++ [e.pwd.getD ""])
    else (parts2, k2, ws2)
  let parts3 := stepC.1
  let k3 := stepC.2.1
  let ws3 := stepC.2.2
  let stepD : String × List String :=
    if isShellText e parts3 = false ∧ e.login parts3 = true ∧
        optTruthy e.username = true then
      let p4 := parts3 ++ e.dev k3
      let w4 := ws3 ++ [e.username.getD ""]
      if e.password p4 = true ∧ optTruthy e.pwd = true then
        (p4 ++ e.dev (k3 + 1), w4 ++ [e.pwd.getD ""])
      else (p4, w4)
    else (parts3, ws3)
  { transcript := stepD.1
    state :=
      if isShellText e stepD.1 then "shell"
      else if stepD.1.isEmpty then "no_terminal" else "alive_no_shell"
    writes := stepD.2 }

/-- C8: whenever the accumulated transcript already matches a shell prompt
after the initial empty-line wake, `_probe_port` reaches the `shell` state
and every line it wrote is an empty wake line — the login and password
fallback steps are skipped entirely, so neither the username nor the
password is ever sent. -/
theorem probe_shell_idempotent_no_credentials (e : ProbeEnv)
    (h : isShellText e (probeWakeTranscript e) = true) :
    (probeSession e).state = "shell" ∧
    ∀ w ∈ (probeSession e).writes, w = "" := by
  have hsession :
      probeSession e =
        { transcript := probeWakeTranscript e
          state := "shell"
          writes := probeWakeWrites e } := by
    simp [probeSession, h]
  constructor
  · rw [hsession]
  · rw [hsession]
    intro w hw
    unfold probeWakeWrites at hw
    by_cases h0 : isShellText e (e.dev 0) <;> simp [h0] at hw <;> exact hw

theorem probe_shell_idempotent_no_credentials_witness :
    (probeSession
      ⟨fun s => s == "u@h:~$ ", fun _ => false, fun _ => false, fun _ => false,
        some "root", some "pw", fun _ => "u@h:~$ "⟩).state = "shell" :=
  (probe_shell_idempotent_no_credentials
    ⟨fun s => s == "u@h:~$ ", fun _ => false, fun _ => false, fun _ => false,
      some "root", some "pw", fun _ => "u@h:~$ "⟩ (by decide)).1

/-! ## C4: wake/login silence budget (`_wake_and_wait_for_console`,
lines 227-340; constants lines 46-47)

Time is modelled explicitly: each `_probe_for_any_output` polls until
`min(deadline, now + SERIAL_NO_OUTPUT_PROBE_WINDOW_S)` whether or not data
arrived, so it consumes exactly the clamped window; `_read_until_any` runs to
its (inner) deadline when nothing matches, and consumes a device-chosen but
deadline-clamped duration `rDur` when a pattern matches. The n-th read
operation of the session returns `dev n`. Writes are instantaneous. Pattern
matching inside `_read_until_any` is abstracted to testing the final returned
buffer against the patterns in list order; with no data the source never
consults the patterns and returns `(None, "")`, which the model mirrors. -/

/-- `SERIAL_NO_OUTPUT_PROBE_WINDOW_S`. -/
def SERIAL_NO_OUTPUT_PROBE_WINDOW_S : ℚ := 4/5

/-- `SERIAL_MAX_CONSECUTIVE_SILENT_PROBES`. -/
def SERIAL_MAX_CONSECUTIVE_SILENT_PROBES : Nat := 2

/-- Environment of one wake/login session: matchers, credentials, the read
stream, and the device-chosen read durations for matched reads. -/
structure WakeEnv where
  prompt : String → Bool
  fallback : String → Bool
  login : String → Bool
  password : String → Bool
  username : Option String
  pwd : Option String
  dev : Nat → String
  rDur : Nat → ℚ

/-- Mutable state of `_wake_and_wait_for_console`: accumulated transcript,
consecutive silent probes, login attempts, next read index, current time. -/
structure WakeSt where
  parts : String
  silent : Nat
  loginAttempts : Nat
  k : Nat
  now : ℚ

/-- State at function entry (session clock starts at 0). -/
def initWakeSt : WakeSt := ⟨"", 0, 0, 0, 0⟩

/-- `_has_shell_now()`. -/
def hasShell (e : WakeEnv) (t : String) : Bool :=
  looksLikeShellPrompt e.prompt e.fallback t

/-- `_fail_no_output_message()`. -/
def noOutputMsg (parts : String) : String :=
  parts ++
    "\n[serial-runner] no output after active serial probes; connection appears inactive\n"

/-- `_probe_for_any_output`: waits until `min(deadline, now + window)`;
returns the stream text (empty when the window is already closed). -/
def probeOp (e : WakeEnv) (k : Nat) (now dl : ℚ) : String × ℚ :=
  if min dl (now + SERIAL_NO_OUTPUT_PROBE_WINDOW_S) ≤ now then ("", 0)
  else (e.dev k, min dl (now + SERIAL_NO_OUTPUT_PROBE_WINDOW_S) - now)

/-- `_mark_probe_output` combined with the time advance of the probe. -/
def markProbe (st : WakeSt) (out : String) (d : ℚ) : WakeSt :=
  { parts := st.parts ++ out
    silent := if out.isEmpty then st.silent + 1 else 0
    loginAttempts := st.loginAttempts
    k := st.k + 1
    now := st.now + d }

/-- `_read_until_any`: with no data it polls to the deadline and returns
`(none, "")`; with data it returns the buffer, the first matching pattern
index in list order, and a clamped duration. -/
def readUntilOp (e : WakeEnv) (pats : List (String → Bool)) (k : Nat)
    (now dl : ℚ) : Option Nat × String × ℚ :=
  if now < dl then
    if (e.dev k).isEmpty then (none, "", dl - now)
    else
      match pats.findIdx? (fun p => p (e.dev k)) with
      | some i => (some i, e.dev k, min (max 0 (e.rDur k)) (dl - now))
      | none => (none, e.dev k, dl - now)
  else (none, "", 0)

/-- The initial wake loop (`for _ in range(2)`): send an empty line, probe,
return ready on a shell match, fail once the silent-probe cap is reached. -/
def wakeWakeLoop (e : WakeEnv) (dl : ℚ) :
    Nat → WakeSt → Option (Bool × String × ℚ) × WakeSt
  | 0, st => (none, st)
  | n + 1, st =>
    let p := probeOp e st.k st.now dl
    let st1 := markProbe st p.1 p.2
    if hasShell e st1.parts then (some (true, st1.parts, st1.now), st1)
    else if SERIAL_MAX_CONSECUTIVE_SILENT_PROBES ≤ st1.silent then
      (some (false, noOutputMsg st1.parts, st1.now), st1)
    else wakeWakeLoop e dl n st1

/-- The main `while _now() < deadline` loop of `_wake_and_wait_for_console`,
with fuel bounding the number of iterations. Returns
`(ready, transcript, finish time)`. -/
def wakeMainLoop (e : WakeEnv) (dl : ℚ) : Nat → WakeSt → Bool × String × ℚ
  | 0, st => (false, st.parts, st.now)
  | fuel + 1, st =>
    if st.now < dl then
      let r := readUntilOp e [e.prompt, e.fallback, e.login, e.password] st.k st.now
        (min dl (st.now + 3/2))
      let st1 : WakeSt :=
        { parts := st.parts ++ r.2.1, silent := st.silent,
          loginAttempts := st.loginAttempts, k := st.k + 1, now := st.now + r.2.2 }
      if r.2.1.isEmpty = false ∧ hasShell e st1.parts = true then
        (true, st1.parts, st1.now)
      else
        match r.1 with
        | none =>
          let p := probeOp e st1.k st1.now dl
          let st2 := markProbe st1 p.1 p.2
          if hasShell e st2.parts then (true, st2.parts, st2.now)
          else if SERIAL_MAX_CONSECUTIVE_SILENT_PROBES ≤ st2.silent then
            (false, noOutputMsg st2.parts, st2.now)
          else wakeMainLoop e dl fuel st2
        | some 0 => (true, st1.parts, st1.now)
        | some 1 => (true, st1.parts, st1.now)
        | some 2 =>
          if optTruthy e.username = false then
            (false,
              st1.parts ++
                "\n[serial-runner] login prompt detected but no --username provided\n",
              st1.now)
          else if 2 ≤ st1.loginAttempts then
            (false,
              st1.parts ++
                "\n[serial-runner] login prompt repeated after credential attempts\n",
              st1.now)
          else
            let st2 : WakeSt := { st1 with loginAttempts := st1.loginAttempts + 1 }
            let r2 := readUntilOp e [e.prompt, e.fallback, e.password, e.login] st2.k
              st2.now (min dl (st2.now + 3))
            let st3 : WakeSt :=
              { parts := st2.parts ++ r2.2.1, silent := st2.silent,
                loginAttempts := st2.loginAttempts, k := st2.k + 1,
                now := st2.now + r2.2.2 }
            match r2.1 with
            | some 0 => (true, st3.parts, st3.now)
            | some 1 => (true, st3.parts, st3.now)
            | some 2 =>
              if optTruthy e.pwd = false then
                (false,
                  st3.parts ++
                    "\n[serial-runner] password prompt detected but no --password provided\n",
                  st3.now)
              else
                let r3 := readUntilOp e [e.prompt, e.fallback, e.login, e.password]
                  st3.k st3.now (min dl (st3.now + 4))
                let st4 : WakeSt :=
                  { parts := st3.parts ++ r3.2.1, silent := st3.silent,
                    loginAttempts := st3.loginAttempts, k := st3.k + 1,
                    now := st3.now + r3.2.2 }
                match r3.1 with
                | some 0 => (true, st4.parts, st4.now)
                | some 1 => (true, st4.parts, st4.now)
                | _ => wakeMainLoop e dl fuel st4
            | none =>
              let p2 := probeOp e st3.k st3.now dl
              let st4 := markProbe st3 p2.1 p2.2
              if p2.1.isEmpty then (false, noOutputMsg st4.parts, st4.now)
              else wakeMainLoop e dl fuel st4
            | some _ => wakeMainLoop e dl fuel st3
        | some 3 =>
          if optTruthy e.pwd = false then
            (false,
              st1.parts ++
                "\n[serial-runner] password prompt detected but no --password provided\n",
              st1.now)
          else
            let p := probeOp e st1.k st1.now dl
            let st2 := markProbe st1 p.1 p.2
            if p.1.isEmpty then (false, noOutputMsg st2.parts, st2.now)
            else wakeMainLoop e dl fuel st2
        | some _ => (false, st1.parts, st1.now)
    else (false, st.parts, st.now)

/-- `_wake_and_wait_for_console`: the two-iteration wake loop followed by the
fuelled main loop. -/
def wakeAndWaitForConsole (e : WakeEnv) (dl : ℚ) (fuel : Nat) : Bool × String × ℚ :=
  match wakeWakeLoop e dl 2 initWakeSt with
  | (some r, _) => r
  | (none, st) => wakeMainLoop e dl fuel st

/-- C4: on a session that receives zero bytes of output (and whose prompt
matchers do not fire on the empty transcript), the wake state machine counts
consecutive empty probe windows and, on reaching the cap of
`SERIAL_MAX_CONSECUTIVE_SILENT_PROBES = 2`, returns a failed session whose
synthetic transcript contains "connection appears inactive" (the
NO_TERMINAL-equivalent classification used by `main`) at time
`2 * SERIAL_NO_OUTPUT_PROBE_WINDOW_S = 1.6 s`, strictly before any outer
deadline larger than that — it does not keep looping until the deadline,
whatever loop fuel is available. -/
theorem wake_silent_probes_no_terminal (e : WakeEnv) (dl : ℚ) (fuel : Nat)
    (hdev : ∀ k, e.dev k = "")
    (hp : e.prompt "" = false) (hf : e.fallback "" = false)
    (hdl : 8/5 < dl) :
    wakeAndWaitForConsole e dl fuel = (false, noOutputMsg "", 8/5) ∧
    (8 : ℚ)/5 =
      (SERIAL_MAX_CONSECUTIVE_SILENT_PROBES : ℚ) * SERIAL_NO_OUTPUT_PROBE_WINDOW_S ∧
    (8 : ℚ)/5 < dl ∧
    isNoSerialConnectionOutput (noOutputMsg "") = true := by
  have hshell : hasShell e "" = false := by
    unfold hasShell looksLikeShellPrompt
    rw [hp, hf]
    decide
  have h45 : (4 : ℚ)/5 ≤ dl := by linarith
  have hprobe1 : probeOp e 0 0 dl = ("", 4/5) := by
    unfold probeOp SERIAL_NO_OUTPUT_PROBE_WINDOW_S
    rw [show (0 : ℚ) + 4/5 = 4/5 by norm_num, min_eq_right h45,
      if_neg (by norm_num), hdev 0]
    norm_num
  have hprobe2 : probeOp e 1 (4/5) dl = ("", 4/5) := by
    unfold probeOp SERIAL_NO_OUTPUT_PROBE_WINDOW_S
    rw [show (4 : ℚ)/5 + 4/5 = 8/5 by norm_num, min_eq_right (le_of_lt hdl),
      if_neg (by norm_num), hdev 1]
    norm_num
  have happ : ("" : String) ++ "" = "" := rfl
  have hrun : wakeAndWaitForConsole e dl fuel = (false, noOutputMsg "", 8/5) := by
    unfold wakeAndWaitForConsole
    rw [show (2 : Nat) = 1 + 1 from rfl]
    have hemp : ("" : String).isEmpty = true := rfl
    simp only [wakeWakeLoop, initWakeSt, markProbe, hprobe1, happ, hshell]
    norm_num [hprobe2, markProbe, happ, hshell, hemp,
      SERIAL_MAX_CONSECUTIVE_SILENT_PROBES]
  refine ⟨hrun, by norm_num [SERIAL_MAX_CONSECUTIVE_SILENT_PROBES,
    SERIAL_NO_OUTPUT_PROBE_WINDOW_S], hdl, by decide⟩

theorem wake_silent_probes_no_terminal_witness :
    wakeAndWaitForConsole
        ⟨fun _ => false, fun _ => false, fun _ => false, fun _ => false,
          none, none, fun _ => "", fun _ => 0⟩ 10 5 =
      (false, noOutputMsg "", 8/5) :=
  (wake_silent_probes_no_terminal
    ⟨fun _ => false, fun _ => false, fun _ => false, fun _ => false,
      none, none, fun _ => "", fun _ => 0⟩ 10 5
    (fun _ => rfl) rfl rfl (by norm_num)).1
